import Mathlib

/-!
# Verification of the HTTP image-scoring client

Shallow embedding of `score_image_with_http`
(`src/samples/deployment/deployment.ipynb`), the single self-contained
piece of logic of this repository: it reads a local image file,
base64-encodes the bytes, wraps them in a JSON envelope, posts the
envelope to a scoring endpoint with an optional bearer token, and
decodes the doubly JSON-encoded response, raising `ValueError` on any
decoding failure.

The embedding models:
* Python `base64.b64encode` (`b64encodeBytes`) and, for stating the
  round-trip property, a standard strict base64 decoder
  (`b64decodeBytes`);
* Python `str(bytes)` as produced by `"{0}".format(encoded)`
  (`pyBytesRepr`), which wraps the ASCII payload in `b` and single
  quotes — the source's own comment records the resulting shape;
* Python `json.loads` (`jsonLoads`: strict JSON grammar plus the
  `NaN`/`Infinity`/`-Infinity` constants the stdlib accepts, numbers
  kept as their lexemes since the client never uses numeric values) and
  `json.dumps` with default separators and `ensure_ascii`
  (`JValue.dumps`);
* Python subscripting `result[0]` on a decoded JSON value
  (`pyIndex0`): lists index, strings yield their first character,
  every other decoded value raises (`KeyError`/`IndexError`/
  `TypeError`), all of which the source's bare `except:` turns into
  the one `ValueError`;
* the function itself (`score_image_with_http`), with the file read
  and the HTTP transport abstracted as explicit inputs.
-/

/-! ## Base64 (model of Python `base64.b64encode`) -/

/-- The standard base64 alphabet, index 0–63. -/
def b64Alphabet : List Char :=
  "ABCDEFGHIJKLMNOPQRSTUVWXYZabcdefghijklmnopqrstuvwxyz0123456789+/".data

/-- Character at a 6-bit index of the base64 alphabet. -/
def b64Char (n : Nat) : Char := b64Alphabet.getD n ' '

/-- Index of a character in the base64 alphabet, `none` if absent. -/
def b64CharIdx (c : Char) : Option Nat := b64Alphabet.findIdx? (· = c)

/-- Python `base64.b64encode` on a byte string: 3-byte groups to 4
alphabet characters, with `=` padding, no line wrapping. -/
def b64encodeBytes : List Nat → List Char
  | [] => []
  | [a] => [b64Char (a / 4), b64Char (a % 4 * 16), '=', '=']
  | [a, b] =>
      [b64Char (a / 4), b64Char (a % 4 * 16 + b / 16), b64Char (b % 16 * 4), '=']
  | a :: b :: c :: rest =>
      b64Char (a / 4) :: b64Char (a % 4 * 16 + b / 16) ::
      b64Char (b % 16 * 4 + c / 64) :: b64Char (c % 64) :: b64encodeBytes rest

/-- Strict base64 decoder (the spec's "decodes back" direction; the
source never decodes, so this is the standard inverse reading of the
encoding). -/
def b64decodeBytes : List Char → Option (List Nat)
  | [] => some []
  | c1 :: c2 :: c3 :: c4 :: rest =>
      match b64CharIdx c1, b64CharIdx c2 with
      | some i1, some i2 =>
          if c3 = '=' then
            if c4 = '=' ∧ rest = [] then some [i1 * 4 + i2 / 16] else none
          else
            match b64CharIdx c3 with
            | some i3 =>
                if c4 = '=' then
                  if rest = [] then
                    some [i1 * 4 + i2 / 16, i2 % 16 * 16 + i3 / 4]
                  else none
                else
                  match b64CharIdx c4, b64decodeBytes rest with
                  | some i4, some tail =>
                      some ((i1 * 4 + i2 / 16) :: (i2 % 16 * 16 + i3 / 4) ::
                            (i3 % 4 * 64 + i4) :: tail)
                  | _, _ => none
            | none => none
      | _, _ => none
  | _ => none

/-- `base64.b64encode` producing text. -/
def b64encode (bs : List Nat) : String := String.mk (b64encodeBytes bs)

/-- Base64 decoding of text. -/
def b64decode (s : String) : Option (List Nat) := b64decodeBytes s.data

/-! ## Python bytes formatting -/

/-- The single-quote character. -/
def squote : String := String.singleton (Char.ofNat 39)

/-- Python `"{0}".format(b)` for a bytes object `b`, i.e. `str(b)`,
restricted to printable payloads without quotes or backslashes (all
base64 output is in that range): the payload wrapped as `b`
single-quote payload single-quote. -/
def pyBytesRepr (s : String) : String := "b" ++ squote ++ s ++ squote

/-! ## JSON values -/

/-- JSON values as decoded by Python `json.loads`. Numbers (including
the stdlib's `NaN`/`Infinity` constants) are kept as their source
lexemes: the client never inspects numeric values, only parse
success/failure and string payloads. Objects keep their members in
source order. -/
inductive JValue where
  | null
  | bool (b : Bool)
  | num (lexeme : String)
  | str (s : String)
  | arr (elems : List JValue)
  | obj (fields : List (String × JValue))

/-- Whether a JSON value is an array. -/
def JValue.isArr : JValue → Bool
  | .arr _ => true
  | _ => false

/-- Whether a JSON value is a non-empty array. -/
def JValue.isNonEmptyArr : JValue → Bool
  | .arr (_ :: _) => true
  | _ => false

/-! ## JSON parsing (model of Python `json.loads`) -/

/-- JSON whitespace (the four characters `json` skips). -/
def isJsonWs (c : Char) : Bool :=
  c = ' ' || c = '\t' || c = '\n' || c = '\r'

/-- Drop leading JSON whitespace. -/
def skipWs : List Char → List Char
  | [] => []
  | c :: cs => if isJsonWs c then skipWs cs else c :: cs

/-- Value of a hexadecimal digit. -/
def hexVal (c : Char) : Option Nat :=
  if '0' ≤ c ∧ c ≤ '9' then some (c.toNat - '0'.toNat)
  else if 'a' ≤ c ∧ c ≤ 'f' then some (c.toNat - 'a'.toNat + 10)
  else if 'A' ≤ c ∧ c ≤ 'F' then some (c.toNat - 'A'.toNat + 10)
  else none

/-- Parse the body of a JSON string (after the opening quote), with an
accumulator of the characters read so far (reversed). Returns the
string and the input after the closing quote. Strict mode: raw control
characters below `0x20` are rejected, escapes are the JSON ones. -/
def parseStrChars : List Char → List Char → Option (String × List Char)
  | acc, c :: cs =>
      if c = '"' then some (String.mk acc.reverse, cs)
      else if c = '\\' then
        match cs with
        | e :: cs2 =>
            if e = '"' then parseStrChars ('"' :: acc) cs2
            else if e = '\\' then parseStrChars ('\\' :: acc) cs2
            else if e = '/' then parseStrChars ('/' :: acc) cs2
            else if e = 'b' then parseStrChars (Char.ofNat 8 :: acc) cs2
            else if e = 'f' then parseStrChars (Char.ofNat 12 :: acc) cs2
            else if e = 'n' then parseStrChars ('\n' :: acc) cs2
            else if e = 'r' then parseStrChars ('\r' :: acc) cs2
            else if e = 't' then parseStrChars ('\t' :: acc) cs2
            else if e = 'u' then
              match cs2 with
              | h1 :: h2 :: h3 :: h4 :: cs3 =>
                  match hexVal h1, hexVal h2, hexVal h3, hexVal h4 with
                  | some v1, some v2, some v3, some v4 =>
                      parseStrChars
                        (Char.ofNat (v1 * 4096 + v2 * 256 + v3 * 16 + v4) :: acc) cs3
                  | _, _, _, _ => none
              | _ => none
            else none
        | [] => none
      else if c.toNat < 32 then none
      else parseStrChars (c :: acc) cs
  | _, [] => none

/-- Longest prefix of decimal digits, and the remainder. -/
def spanDigits : List Char → List Char × List Char
  | [] => ([], [])
  | c :: cs =>
      if c.isDigit then
        let (ds, rest) := spanDigits cs
        (c :: ds, rest)
      else ([], c :: cs)

/-- Optional exponent part of a JSON number, appended to the lexeme
accumulated so far. -/
def parseNumExp (pre : List Char) (cs : List Char) : Option (String × List Char) :=
  match cs with
  | e :: r2 =>
      if e = 'e' ∨ e = 'E' then
        let (esign, r3) :=
          match r2 with
          | '+' :: r4 => (['+'], r4)
          | '-' :: r4 => (['-'], r4)
          | _ => ([], r2)
        match spanDigits r3 with
        | ([], _) => none
        | (ds, rest) => some (String.mk (pre ++ e :: esign ++ ds), rest)
      else some (String.mk pre, e :: r2)
  | [] => some (String.mk pre, [])

/-- Optional fraction (then exponent) of a JSON number, after its
integer part. -/
def parseNumTail (intPart : List Char) (cs : List Char) : Option (String × List Char) :=
  match cs with
  | '.' :: r =>
      match spanDigits r with
      | ([], _) => none
      | (ds, rest) => parseNumExp (intPart ++ '.' :: ds) rest
  | _ => parseNumExp intPart cs

/-- Parse a JSON number according to the `json` module's grammar
`-?(0|[1-9][0-9]*)(\.[0-9]+)?([eE][-+]?[0-9]+)?`, returning its
lexeme. -/
def parseNumber (cs : List Char) : Option (String × List Char) :=
  let (sign, cs1) :=
    match cs with
    | '-' :: r => (['-'], r)
    | _ => ([], cs)
  match cs1 with
  | c :: r =>
      if c = '0' then parseNumTail (sign ++ ['0']) r
      else if c.isDigit then
        let (ds, rest) := spanDigits r
        parseNumTail (sign ++ c :: ds) rest
      else none
  | [] => none

/-- Starts of the constants `json.loads` accepts at value position:
`true`, `false`, `null`, and the stdlib extensions `NaN`, `Infinity`,
`-Infinity`. Returns the decoded value and the remainder. -/
def parseConst : List Char → Option (JValue × List Char)
  | 't' :: 'r' :: 'u' :: 'e' :: rest => some (.bool true, rest)
  | 'f' :: 'a' :: 'l' :: 's' :: 'e' :: rest => some (.bool false, rest)
  | 'n' :: 'u' :: 'l' :: 'l' :: rest => some (.null, rest)
  | 'N' :: 'a' :: 'N' :: rest => some (.num "NaN", rest)
  | 'I' :: 'n' :: 'f' :: 'i' :: 'n' :: 'i' :: 't' :: 'y' :: rest =>
      some (.num "Infinity", rest)
  | '-' :: 'I' :: 'n' :: 'f' :: 'i' :: 'n' :: 'i' :: 't' :: 'y' :: rest =>
      some (.num "-Infinity", rest)
  | _ => none

mutual

/-- Parse one JSON value (leading whitespace allowed), fuel-indexed. -/
def parseVal : Nat → List Char → Option (JValue × List Char)
  | 0, _ => none
  | fuel + 1, cs =>
      match skipWs cs with
      | [] => none
      | c :: rest =>
          if c = '"' then
            match parseStrChars [] rest with
            | some (s, r) => some (.str s, r)
            | none => none
          else if c = '[' then
            match skipWs rest with
            | ']' :: r2 => some (.arr [], r2)
            | cs2 =>
                match parseArrItems fuel cs2 with
                | some (vs, r2) => some (.arr vs, r2)
                | none => none
          else if c = '{' then
            match skipWs rest with
            | '}' :: r2 => some (.obj [], r2)
            | cs2 =>
                match parseObjItems fuel cs2 with
                | some (kvs, r2) => some (.obj kvs, r2)
                | none => none
          else
            match parseConst (c :: rest) with
            | some (v, r) => some (v, r)
            | none =>
                if c = '-' ∨ c.isDigit then
                  match parseNumber (c :: rest) with
                  | some (lex, r) => some (.num lex, r)
                  | none => none
                else none

/-- Parse the items of a non-empty JSON array (position right after
`[` or after a `,`), up to and including the closing `]`. -/
def parseArrItems : Nat → List Char → Option (List JValue × List Char)
  | 0, _ => none
  | fuel + 1, cs =>
      match parseVal fuel cs with
      | some (v, r) =>
          match skipWs r with
          | ',' :: r2 => 
              match parseArrItems fuel r2 with
              | some (vs, r3) => some (v :: vs, r3)
              | none => none
          | ']' :: r2 => some ([v], r2)
          | _ => none
      | none => none

/-- Parse the members of a non-empty JSON object (position right after
`{` or after a `,`), up to and including the closing `}`. -/
def parseObjItems : Nat → List Char → Option (List (String × JValue) × List Char)
  | 0, _ => none
  | fuel + 1, cs =>
      match skipWs cs with
      | '"' :: r =>
          match parseStrChars [] r with
          | some (k, r1) =>
              match skipWs r1 with
              | ':' :: r2 =>
                  match parseVal fuel r2 with
                  | some (v, r3) =>
                      match skipWs r3 with
                      | ',' :: r4 =>
                          match parseObjItems fuel r4 with
                          | some (kvs, r5) => some ((k, v) :: kvs, r5)
                          | none => none
                      | '}' :: r4 => some ([(k, v)], r4)
                      | _ => none
                  | none => none
              | _ => none
          | none => none
      | _ => none

end

/-- Model of Python `json.loads` on text: parse one value, then require
only whitespace to remain (`json.loads` raises "Extra data"
otherwise). `none` models a raised `JSONDecodeError`. -/
def jsonLoads (s : String) : Option JValue :=
  match parseVal (2 * s.length + 2) s.data with
  | some (v, rest) => if skipWs rest = [] then some v else none
  | none => none

/-! ## JSON serialization (model of `json.dumps` with default options) -/

/-- Lowercase hexadecimal digit. -/
def hexDigit (n : Nat) : Char :=
  if n < 10 then Char.ofNat ('0'.toNat + n) else Char.ofNat ('a'.toNat + n - 10)

/-- Four lowercase hexadecimal digits, as in Python's `\uXXXX`. -/
def hex4 (n : Nat) : String :=
  String.mk [hexDigit (n / 4096 % 16), hexDigit (n / 256 % 16),
             hexDigit (n / 16 % 16), hexDigit (n % 16)]

/-- Escape one character as `json.dumps` does with `ensure_ascii=True`:
quote, backslash and everything outside `0x20`–`0x7e` are escaped
(short escapes where they exist, else `\uXXXX`, surrogate pairs above
the BMP). -/
def escChar (c : Char) : String :=
  if c = '"' then "\\\""
  else if c = '\\' then "\\\\"
  else if c = '\n' then "\\n"
  else if c = '\r' then "\\r"
  else if c = '\t' then "\\t"
  else if c.toNat = 8 then "\\b"
  else if c.toNat = 12 then "\\f"
  else if c.toNat < 32 ∨ c.toNat > 126 then
    if c.toNat < 65536 then "\\u" ++ hex4 c.toNat
    else
      "\\u" ++ hex4 (55296 + (c.toNat - 65536) / 1024) ++
      "\\u" ++ hex4 (56320 + (c.toNat - 65536) % 1024)
  else String.singleton c

/-- `json.dumps` of a Python string. -/
def dumpStr (s : String) : String :=
  "\"" ++ String.join (s.data.map escChar) ++ "\""

mutual

/-- `json.dumps` with the default separators `", "` and `": "` and
`ensure_ascii=True`, as called on the request payload. -/
def JValue.dumps : JValue → String
  | .null => "null"
  | .bool true => "true"
  | .bool false => "false"
  | .num lex => lex
  | .str s => dumpStr s
  | .arr xs => "[" ++ dumpsItems xs ++ "]"
  | .obj kvs => "\x7b" ++ dumpsMembers kvs ++ "\x7d"

/-- Array items joined by `", "`. -/
def dumpsItems : List JValue → String
  | [] => ""
  | [x] => x.dumps
  | x :: y :: xs => x.dumps ++ ", " ++ dumpsItems (y :: xs)

/-- Object members, each `key: value`, joined by `", "`. -/
def dumpsMembers : List (String × JValue) → String
  | [] => ""
  | [(k, v)] => dumpStr k ++ ": " ++ v.dumps
  | (k, v) :: m :: kvs => dumpStr k ++ ": " ++ v.dumps ++ ", " ++ dumpsMembers (m :: kvs)

end

/-! ## The HTTP client (`score_image_with_http`) -/

/-- An outgoing HTTP request as `requests.post` receives it from the
client: URL, method, headers and serialized body. -/
structure HttpRequest where
  url : String
  method : String
  headers : List (String × String)
  body : String

/-- An HTTP response as the client consumes it: `requests`' `Response`
restricted to the two attributes that exist for the client's purposes —
the status code (which the source never reads) and the body text. -/
structure HttpResponse where
  status : Nat
  text : String

/-- Errors the client can raise: a propagated I/O error from opening or
reading the file, or the `ValueError` raised in the response-decoding
`except:` handler. -/
inductive ScoreError where
  | ioError (e : String)
  | valueError (msg : String)

/-- The headers the source builds: `Content-Type` always, and
`Authorization: Bearer <key>` exactly when `service_key` is not
`None`. -/
def mkHeaders (service_key : Option String) : List (String × String) :=
  match service_key with
  | none => [("Content-Type", "application/json")]
  | some key => [("Content-Type", "application/json"),
                 ("Authorization", "Bearer " ++ key)]

/-- The value the source stores under `"image_in_base64"`:
`"{0}".format(base64.b64encode(bytes))`, i.e. the `str()` of a bytes
object — the base64 text wrapped in `b'...'`. -/
def imageInBase64Field (imageBytes : List Nat) : String :=
  pyBytesRepr (b64encode imageBytes)

/-- The request payload: `payload = []` followed by
`payload.append({"image_in_base64": ..., "parameters": parameters})`,
a one-element array. -/
def scorePayload (imageBytes : List Nat) (parameters : List (String × JValue)) : JValue :=
  .arr [.obj [("image_in_base64", .str (imageInBase64Field imageBytes)),
              ("parameters", .obj parameters)]]

/-- The outgoing request `requests.post(service_endpoint_url,
data=body, headers=headers)` with `body = json.dumps(payload)`. -/
def buildRequest (imageBytes : List Nat) (service_endpoint_url : String)
    (service_key : Option String) (parameters : List (String × JValue)) : HttpRequest :=
  { url := service_endpoint_url
    method := "POST"
    headers := mkHeaders service_key
    body := (scorePayload imageBytes parameters).dumps }

/-- Python subscripting `result[0]` on a value decoded by
`json.loads`: lists yield their first element (`IndexError` when
empty), strings yield their first character as a one-character string
(`IndexError` when empty), dicts raise `KeyError` (string keys never
equal the int key `0`), numbers, booleans and `None` raise
`TypeError`. `none` models any raised exception. -/
def pyIndex0 : JValue → Option JValue
  | .arr (x :: _) => some x
  | .str s =>
      match s.data with
      | c :: _ => some (.str (String.singleton c))
      | [] => none
  | _ => none

/-- The argument check of `json.loads(result[0])`: only a string may
be parsed (on any other decoded value Python raises `TypeError`). -/
def pyLoadsArg : JValue → Option JValue
  | .str s => jsonLoads s
  | _ => none

/-- The `ValueError` message of the source handler, raw response text
appended. -/
def incorrectOutputMsg (text : String) : String :=
  "Incorrect output format. Result cant not be parsed: " ++ text

/-- The response-decoding step of the source:

    try:
        result = json.loads(r.text)
        json.loads(result[0])
    except:
        raise ValueError("Incorrect output format. ..." + r.text)
    return result[0]

Every exception of the `try:` block — outer `JSONDecodeError`, the
`KeyError`/`IndexError`/`TypeError` of `result[0]`, the `TypeError` of
`json.loads` on a non-string, the inner `JSONDecodeError` — lands in
the bare `except:` and becomes the one `ValueError`. On success the
returned `result[0]` is necessarily the string that just parsed. -/
def decodeResponse (text : String) : Except ScoreError String :=
  match jsonLoads text with
  | none => .error (.valueError (incorrectOutputMsg text))
  | some result =>
      match pyIndex0 result with
      | none => .error (.valueError (incorrectOutputMsg text))
      | some first =>
          match pyLoadsArg first with
          | none => .error (.valueError (incorrectOutputMsg text))
          | some _ =>
              match first with
              | .str s => .ok s
              | _ => .error (.valueError (incorrectOutputMsg text))

/-- Shallow embedding of `score_image_with_http`. The local file
system and the network are explicit inputs: `readImage` is the result
of `open(image,'rb')` / `f.read()` (`Except.error` models a raised
`OSError`, which nothing in the function catches), and `post` is the
transport behind `requests.post`, mapping the outgoing request to the
server's response. -/
def score_image_with_http (readImage : Except String (List Nat))
    (service_endpoint_url : String) (service_key : Option String)
    (parameters : List (String × JValue))
    (post : HttpRequest → HttpResponse) : Except ScoreError String :=
  match readImage with
  | .error e => .error (.ioError e)
  | .ok imageBytes =>
      let r := post (buildRequest imageBytes service_endpoint_url service_key parameters)
      decodeResponse r.text

/-- The network calls a single invocation issues: `requests.post` is
reached exactly once, and only after the file read succeeded (the
`OSError` of a failed `open`/`read` propagates before any request is
built). -/
def issuedRequests (readImage : Except String (List Nat))
    (service_endpoint_url : String) (service_key : Option String)
    (parameters : List (String × JValue)) : List HttpRequest :=
  match readImage with
  | .error _ => []
  | .ok imageBytes =>
      [buildRequest imageBytes service_endpoint_url service_key parameters]

/-- `score_image_with_http` with the mutable-state view of its
`parameters` dict made explicit: alongside the result, the value the
dict object holds when the call returns. No statement of the source
writes to `parameters` — it is only embedded into `image_request` and
serialized — so the statement-by-statement translation returns it
unchanged. -/
def score_image_with_http_st (readImage : Except String (List Nat))
    (service_endpoint_url : String) (service_key : Option String)
    (parameters : List (String × JValue))
    (post : HttpRequest → HttpResponse) :
    Except ScoreError String × List (String × JValue) :=
  (score_image_with_http readImage service_endpoint_url service_key parameters post,
   parameters)

/-- `n` successive calls that all rely on the default `parameters`
argument. Python evaluates the `{}` default once, at `def` time, so
the calls share one dict object: its value is threaded through the
calls as state, starting from the given contents, and each call's
issued requests are collected (most recent call first). -/
def defaultParamCalls (reads : Nat → Except String (List Nat)) (url : String)
    (key : Option String) (posts : Nat → HttpRequest → HttpResponse) :
    Nat → List (String × JValue) → List HttpRequest
  | 0, _ => []
  | n + 1, sharedDict =>
      issuedRequests (reads n) url key sharedDict ++
      defaultParamCalls reads url key posts n
        (score_image_with_http_st (reads n) url key sharedDict (posts n)).2

/-! ## Helper lemmas -/

/-- Looking up an alphabet character recovers its 6-bit index. -/
theorem b64CharIdx_b64Char : ∀ i : Nat, i < 64 → b64CharIdx (b64Char i) = some i := by
  decide

/-- No alphabet character is the padding character. -/
theorem b64Char_ne_pad : ∀ i : Nat, i < 64 → ¬ (b64Char i = '=') := by
  decide

/-- Decoding inverts encoding on byte lists. -/
theorem b64decodeBytes_encodeBytes : ∀ bs : List Nat, (∀ b ∈ bs, b < 256) →
    b64decodeBytes (b64encodeBytes bs) = some bs
  | [], _ => rfl
  | [a], h => by
      have ha : a < 256 := h a (by simp)
      have h1 := b64CharIdx_b64Char (a / 4) (by omega)
      have h2 := b64CharIdx_b64Char (a % 4 * 16) (by omega)
      simp only [b64encodeBytes, b64decodeBytes, h1, h2, if_pos rfl, and_self, if_true]
      simp only [Option.some.injEq, List.cons.injEq, and_true]
      omega
  | [a, b], h => by
      have ha : a < 256 := h a (by simp)
      have hb : b < 256 := h b (by simp)
      have h1 := b64CharIdx_b64Char (a / 4) (by omega)
      have h2 := b64CharIdx_b64Char (a % 4 * 16 + b / 16) (by omega)
      have h3 := b64CharIdx_b64Char (b % 16 * 4) (by omega)
      have hne3 := b64Char_ne_pad (b % 16 * 4) (by omega)
      simp only [b64encodeBytes, b64decodeBytes, h1, h2, h3, if_neg hne3,
        if_pos rfl, if_true]
      simp only [Option.some.injEq, List.cons.injEq, and_true]
      omega
  | [a, b, c], h => by
      have ha : a < 256 := h a (by simp)
      have hb : b < 256 := h b (by simp)
      have hc : c < 256 := h c (by simp)
      have ih : b64decodeBytes (b64encodeBytes []) = some [] := rfl
      have h1 := b64CharIdx_b64Char (a / 4) (by omega)
      have h2 := b64CharIdx_b64Char (a % 4 * 16 + b / 16) (by omega)
      have h3 := b64CharIdx_b64Char (b % 16 * 4 + c / 64) (by omega)
      have h4 := b64CharIdx_b64Char (c % 64) (by omega)
      have hne3 := b64Char_ne_pad (b % 16 * 4 + c / 64) (by omega)
      have hne4 := b64Char_ne_pad (c % 64) (by omega)
      simp only [b64encodeBytes, b64decodeBytes, h1, h2, h3, h4, ih,
        if_neg hne3, if_neg hne4]
      simp only [Option.some.injEq, List.cons.injEq, and_true]
      omega
  | a :: b :: c :: d :: rest, h => by
      have ha : a < 256 := h a (by simp)
      have hb : b < 256 := h b (by simp)
      have hc : c < 256 := h c (by simp)
      have ih := b64decodeBytes_encodeBytes (d :: rest)
        (fun x hx => h x (by simp at hx ⊢; tauto))
      have h1 := b64CharIdx_b64Char (a / 4) (by omega)
      have h2 := b64CharIdx_b64Char (a % 4 * 16 + b / 16) (by omega)
      have h3 := b64CharIdx_b64Char (b % 16 * 4 + c / 64) (by omega)
      have h4 := b64CharIdx_b64Char (c % 64) (by omega)
      have hne3 := b64Char_ne_pad (b % 16 * 4 + c / 64) (by omega)
      have hne4 := b64Char_ne_pad (c % 64) (by omega)
      simp only [b64encodeBytes, b64decodeBytes, h1, h2, h3, h4, ih,
        if_neg hne3, if_neg hne4]
      simp only [Option.some.injEq, List.cons.injEq, and_true]
      omega

/-- Text-level base64 round trip. -/
theorem b64decode_b64encode (bs : List Nat) (h : ∀ b ∈ bs, b < 256) :
    b64decode (b64encode bs) = some bs :=
  b64decodeBytes_encodeBytes bs h

/-! ## Claims -/

/-- C1, claim as stated, refuted at the 10-byte file `0x00..0x09`: the
value placed in `image_in_base64` is `b'AAECAwQFBgcICQ=='` — the
`str()` of the bytes object, not bare base64 — and it does not decode
back to the file's bytes (it is not valid base64 at all). -/
theorem C1_counterexample_field_not_plain_base64 :
    imageInBase64Field [0, 1, 2, 3, 4, 5, 6, 7, 8, 9] =
      pyBytesRepr "AAECAwQFBgcICQ==" ∧
    b64decode (imageInBase64Field [0, 1, 2, 3, 4, 5, 6, 7, 8, 9]) = none ∧
    ¬ (b64decode (imageInBase64Field [0, 1, 2, 3, 4, 5, 6, 7, 8, 9]) =
        some [0, 1, 2, 3, 4, 5, 6, 7, 8, 9]) := by
  refine ⟨by decide, by decide, by decide⟩

/-- C1 (amended): for every byte content `B` of the input file, the
value placed in `image_in_base64` is the Python `str()` of the base64
bytes object — `b` quote `base64(B)` quote — and the base64 segment
inside that wrapper decodes back to exactly `B`. -/
theorem C1_theorem_b64_field_roundtrip_amended (bs : List Nat)
    (h : ∀ b ∈ bs, b < 256) :
    imageInBase64Field bs = pyBytesRepr (b64encode bs) ∧
    b64decode (b64encode bs) = some bs :=
  ⟨rfl, b64decode_b64encode bs h⟩

/-- C1 witness: the amended round trip at the concrete bytes
`0x00..0x09`. -/
theorem C1_witness_b64_field_roundtrip :
    imageInBase64Field [0, 1, 2, 3, 4, 5, 6, 7, 8, 9] =
      pyBytesRepr (b64encode [0, 1, 2, 3, 4, 5, 6, 7, 8, 9]) ∧
    b64decode (b64encode [0, 1, 2, 3, 4, 5, 6, 7, 8, 9]) =
      some [0, 1, 2, 3, 4, 5, 6, 7, 8, 9] :=
  C1_theorem_b64_field_roundtrip_amended [0, 1, 2, 3, 4, 5, 6, 7, 8, 9] (by decide)

/-- C2, claim as stated, refuted: at the 10-byte file `0x00..0x09`
with no credential and empty parameters, the serialized outgoing body
is not the claimed
`[{"image_in_base64": "AAECAwQFBgcICQ==", "parameters": {}}]`. -/
theorem C2_counterexample_body_not_plain_base64 :
    ¬ ((buildRequest [0, 1, 2, 3, 4, 5, 6, 7, 8, 9]
          "http://localhost:9999/score" none []).body =
        "[\x7b\"image_in_base64\": \"AAECAwQFBgcICQ==\", \"parameters\": \x7b\x7d\x7d]") := by
  decide

/-- C2 (amended): at the 10-byte file `0x00..0x09`, endpoint
`http://localhost:9999/score`, no credential and empty parameters, the
serialized outgoing body is
`[{"image_in_base64": "b'AAECAwQFBgcICQ=='", "parameters": {}}]`
(base64 text inside the bytes-`str()` wrapper), and when the server
responds with the body `["{\"label\":\"cat\",\"score\":0.91}"]` the
function returns exactly the text `{"label":"cat","score":0.91}`. -/
theorem C2_theorem_end_to_end_amended :
    (buildRequest [0, 1, 2, 3, 4, 5, 6, 7, 8, 9]
        "http://localhost:9999/score" none []).body =
      "[\x7b\"image_in_base64\": \"" ++ pyBytesRepr "AAECAwQFBgcICQ==" ++
        "\", \"parameters\": \x7b\x7d\x7d]" ∧
    score_image_with_http (.ok [0, 1, 2, 3, 4, 5, 6, 7, 8, 9])
        "http://localhost:9999/score" none []
        (fun _ => { status := 200,
                    text := "[\"\x7b\\\"label\\\":\\\"cat\\\",\\\"score\\\":0.91\x7d\"]" }) =
      .ok "\x7b\"label\":\"cat\",\"score\":0.91\x7d" :=
  ⟨by decide, by rfl⟩

/-- C3, claim as stated, refuted: the response body `"0"` (a JSON
string, hence valid JSON but not a non-empty array) is accepted — the
decoded value's subscript `[0]` is the character `"0"`, which parses
as JSON — so "fails exactly when ... not a non-empty array" is false. -/
theorem C3_counterexample_nonarray_body_accepted :
    decodeResponse "\"0\"" = .ok "0" ∧
    (jsonLoads "\"0\"").map JValue.isNonEmptyArr = some false := by
  refine ⟨by rfl, by rfl⟩

/-- C3 (amended): `scoreImage` fails with the dedicated
malformed-response error — whose message is the raw response text
appended to the fixed prefix — exactly when the body is not valid
JSON, or Python subscripting of the decoded value at index 0 raises
(any object, number, boolean or null, or an empty array or string),
or the value at index 0 is not a string whose content is valid JSON.
A body that is valid JSON but not an array is not always rejected: a
JSON string whose first character is valid JSON is accepted. In
particular `{"x":1}` and `["not json"]` both yield the error. -/
theorem C3_theorem_malformed_error_iff_amended :
    (∀ t, decodeResponse t = .error (.valueError (incorrectOutputMsg t)) ↔
      (jsonLoads t = none ∨ ∃ v, jsonLoads t = some v ∧
        (pyIndex0 v = none ∨ ∃ f, pyIndex0 v = some f ∧ pyLoadsArg f = none))) ∧
    decodeResponse "\x7b\"x\":1\x7d" =
      .error (.valueError (incorrectOutputMsg "\x7b\"x\":1\x7d")) ∧
    decodeResponse "[\"not json\"]" =
      .error (.valueError (incorrectOutputMsg "[\"not json\"]")) := by
  refine ⟨?_, by rfl, by rfl⟩
  intro t
  unfold decodeResponse
  cases hj : jsonLoads t with
  | none => simp
  | some v =>
      simp only [hj, Option.some.injEq, reduceCtorEq, false_or, exists_eq_left']
      cases hp : pyIndex0 v with
      | none => simp [hp]
      | some f =>
          simp only [hp, Option.some.injEq, reduceCtorEq, false_or, exists_eq_left']
          cases hl : pyLoadsArg f with
          | none => simp [hl]
          | some w =>
              simp only [hl, reduceCtorEq, iff_false]
              cases f with
              | str s => simp
              | null => simp [pyLoadsArg] at hl
              | bool b => simp [pyLoadsArg] at hl
              | num l => simp [pyLoadsArg] at hl
              | arr es => simp [pyLoadsArg] at hl
              | obj kvs => simp [pyLoadsArg] at hl

/-- C4: the request built with `service_key = None` carries only the
`Content-Type` header — in particular no `Authorization` header — and
with a token `t` its headers are exactly `Content-Type` plus
`Authorization` valued `Bearer`, one space, and `t`. -/
theorem C4_theorem_authorization_header :
    ∀ (bs : List Nat) (url : String) (params : List (String × JValue)),
    (buildRequest bs url none params).headers =
      [("Content-Type", "application/json")] ∧
    ∀ t : String, (buildRequest bs url (some t) params).headers =
      [("Content-Type", "application/json"), ("Authorization", "Bearer " ++ t)] := by
  intro bs url params
  exact ⟨rfl, fun t => rfl⟩

/-- C5, claim as stated, refuted: the response body `"1"` is accepted
as well-formed, yet the body has no outer JSON array at all (it
decodes to a string); the returned text is the string's first
character, not an element of any array. -/
theorem C5_counterexample_accepted_body_not_array :
    decodeResponse "\"1\"" = .ok "1" ∧
    (jsonLoads "\"1\"").map JValue.isArr = some false := by
  refine ⟨by rfl, by rfl⟩

/-- C5 (amended): whenever `scoreImage` accepts a response and returns
text `s`, that text is itself valid JSON; and whenever the response
body decodes to an outer JSON array, `s` is exactly the first
element's string content, unchanged (no inner semantic decoding — the
inner parse result is discarded). Accepted non-array string bodies
instead return their first character. -/
theorem C5_theorem_returns_first_element_amended :
    ∀ t s, decodeResponse t = .ok s →
      (jsonLoads s).isSome ∧
      (∀ es, jsonLoads t = some (.arr es) → es.head? = some (.str s)) := by
  intro t s h
  unfold decodeResponse at h
  cases hj : jsonLoads t with
  | none => simp only [hj] at h; exact absurd h (by simp)
  | some v =>
      simp only [hj] at h
      cases hp : pyIndex0 v with
      | none => simp only [hp] at h; exact absurd h (by simp)
      | some f =>
          simp only [hp] at h
          cases hl : pyLoadsArg f with
          | none => simp only [hl] at h; exact absurd h (by simp)
          | some w =>
              simp only [hl] at h
              cases f with
              | str s2 =>
                  simp only [Except.ok.injEq] at h
                  subst h
                  constructor
                  · simpa [pyLoadsArg] using Option.isSome_iff_exists.mpr ⟨w, hl⟩
                  · intro es hes
                    injection hes with hv
                    subst hv
                    cases es with
                    | nil => simp [pyIndex0] at hp
                    | cons x xs => simp [pyIndex0] at hp; simp [hp]
              | null => simp [pyLoadsArg] at hl
              | bool b => simp [pyLoadsArg] at hl
              | num l => simp [pyLoadsArg] at hl
              | arr es => simp [pyLoadsArg] at hl
              | obj kvs => simp [pyLoadsArg] at hl

/-- C5 witness: the amended theorem applied to the accepted response
`["0"]`, whose outer array's first element is the string `0`. -/
theorem C5_witness_returns_first_element :
    (jsonLoads "0").isSome = true ∧
    List.head? [JValue.str "0"] = some (JValue.str "0") :=
  ⟨(C5_theorem_returns_first_element_amended "[\"0\"]" "0" rfl).1,
   (C5_theorem_returns_first_element_amended "[\"0\"]" "0" rfl).2
     [JValue.str "0"] rfl⟩

/-- C6: every invocation's outgoing request is a single POST to the
given endpoint whose headers start with
`Content-Type: application/json`, and whose body is the JSON
serialization of the one-element array holding the object with exactly
the keys `image_in_base64` (a string) and `parameters` (the input
mapping, verbatim). -/
theorem C6_theorem_request_shape :
    ∀ (bs : List Nat) (url : String) (key : Option String)
      (params : List (String × JValue)),
    (buildRequest bs url key params).method = "POST" ∧
    (buildRequest bs url key params).url = url ∧
    (buildRequest bs url key params).headers.head? =
      some ("Content-Type", "application/json") ∧
    (buildRequest bs url key params).body =
      (JValue.arr [JValue.obj
        [("image_in_base64", JValue.str (imageInBase64Field bs)),
         ("parameters", JValue.obj params)]]).dumps ∧
    issuedRequests (.ok bs) url key params = [buildRequest bs url key params] := by
  intro bs url key params
  refine ⟨rfl, rfl, ?_, rfl, rfl⟩
  cases key <;> rfl

/-- C7: the result depends only on the response body text, never on
the HTTP status code — two transports that return the same bodies
under any two statuses give identical results; concretely, a 500
response with a well-formed doubly-encoded body still returns the
inner text, and a 200 response with a malformed body still fails. -/
theorem C7_theorem_status_code_irrelevant :
    (∀ (readImage : Except String (List Nat)) (url : String)
       (key : Option String) (params : List (String × JValue))
       (bodyF : HttpRequest → String) (s1 s2 : Nat),
      score_image_with_http readImage url key params
        (fun req => { status := s1, text := bodyF req }) =
      score_image_with_http readImage url key params
        (fun req => { status := s2, text := bodyF req })) ∧
    score_image_with_http (.ok [0, 1, 2, 3, 4, 5, 6, 7, 8, 9]) "u" none []
        (fun _ => { status := 500,
                    text := "[\"\x7b\\\"label\\\":\\\"cat\\\",\\\"score\\\":0.91\x7d\"]" }) =
      .ok "\x7b\"label\":\"cat\",\"score\":0.91\x7d" ∧
    score_image_with_http (.ok [0, 1, 2, 3, 4, 5, 6, 7, 8, 9]) "u" none []
        (fun _ => { status := 200, text := "not json" }) =
      .error (.valueError (incorrectOutputMsg "not json")) := by
  refine ⟨?_, by rfl, by rfl⟩
  intro readImage url key params bodyF s1 s2
  cases readImage <;> rfl

/-- C8: when the file read raises, the raised I/O error is returned to
the caller unmodified (an `ioError`, never converted to the
`valueError` of the response handler), independently of the transport,
and no network request is issued. (The remaining part of the claim —
the file handle is closed on every exit path — is the `with
open(image,'rb') as f:` construct of the source, a runtime resource
guarantee outside this embedding's observables.) -/
theorem C8_theorem_io_error_propagated :
    ∀ (e : String) (url : String) (key : Option String)
      (params : List (String × JValue)) (post : HttpRequest → HttpResponse),
    score_image_with_http (.error e) url key params post = .error (.ioError e) ∧
    issuedRequests (.error e) url key params = [] := by
  intro e url key params post
  exact ⟨rfl, rfl⟩

/-- C9: the call never mutates the `parameters` dict it receives —
the state-passing view returns it unchanged — so although the default
`parameters={}` dict is evaluated once and shared across calls, any
number of successive calls relying on the default issue exactly the
requests built from the empty mapping: one per successful file read,
each with `parameters` serialized as `{}`. -/
theorem C9_theorem_parameters_never_mutated :
    (∀ (readImage : Except String (List Nat)) (url : String)
       (key : Option String) (params : List (String × JValue))
       (post : HttpRequest → HttpResponse),
      (score_image_with_http_st readImage url key params post).2 = params) ∧
    (∀ (reads : Nat → Except String (List Nat)) (url : String)
       (key : Option String) (posts : Nat → HttpRequest → HttpResponse) (n : Nat),
      defaultParamCalls reads url key posts n [] =
        (List.range n).reverse.filterMap (fun i =>
          match reads i with
          | .ok bs => some (buildRequest bs url key [])
          | .error _ => none)) := by
  refine ⟨fun _ _ _ _ _ => rfl, ?_⟩
  intro reads url key posts n
  induction n with
  | zero => rfl
  | succ m ih =>
      rw [List.range_succ]
      simp only [List.reverse_append, List.reverse_cons, List.reverse_nil,
        List.nil_append, List.cons_append, List.filterMap_cons]
      rw [defaultParamCalls]
      cases hr : reads m with
      | error e => simpa [issuedRequests, hr, score_image_with_http_st] using ih
      | ok bs => simpa [issuedRequests, hr, score_image_with_http_st] using ih

/-- C10: the response-handling step either returns a string or fails
with the single `valueError` kind carrying the fixed message plus the
raw response text — no other error ever escapes it; in particular the
`KeyError` of subscripting an object (`{"x":1}`), the `TypeError` of
subscripting a number (`5`), and the `TypeError` of re-parsing a
non-string first element (`[2]`) are all converted to that error. -/
theorem C10_theorem_single_error_kind :
    (∀ t, (∃ s, decodeResponse t = .ok s) ∨
      decodeResponse t = .error (.valueError (incorrectOutputMsg t))) ∧
    decodeResponse "\x7b\"x\":1\x7d" =
      .error (.valueError (incorrectOutputMsg "\x7b\"x\":1\x7d")) ∧
    decodeResponse "5" = .error (.valueError (incorrectOutputMsg "5")) ∧
    decodeResponse "[2]" = .error (.valueError (incorrectOutputMsg "[2]")) := by
  refine ⟨?_, by rfl, by rfl, by rfl⟩
  intro t
  unfold decodeResponse
  cases hj : jsonLoads t with
  | none => simp
  | some v =>
      cases hp : pyIndex0 v with
      | none => simp [hp]
      | some f =>
          cases hl : pyLoadsArg f with
          | none => simp [hp, hl]
          | some w =>
              cases f with
              | str s => simp [hp, hl]
              | null => simp [pyLoadsArg] at hl
              | bool b => simp [pyLoadsArg] at hl
              | num l => simp [pyLoadsArg] at hl
              | arr es => simp [pyLoadsArg] at hl
              | obj kvs => simp [pyLoadsArg] at hl
